import Mathlib

set_option maxRecDepth 4000

/-!
Shallow embedding of the makeiso repository (ISO 9660 image writer in
src/main.rs and reader in readiso.rs).  Byte buffers are modelled as
`List Nat` with values below 256; machine integer casts and wrapping
additions are modelled with explicit `% 2^w`.  Rust panics (index out of
range, `copy_from_slice` length mismatch) are modelled by explicit
`panic` constructors of the result types; `Option::None` returned by the
decoders is the `stop` constructor; `io::Error` of kind PermissionDenied
is the only error kind the claims mention, and the only one modelled.
-/

/-- The only io error kind relevant to the modelled control flow:
every match arm in the sources treats `ErrorKind::PermissionDenied`
specially and propagates everything else. -/
inductive IoErr where
  | permissionDenied
  deriving Repr, DecidableEq

/-- Result of a Rust decoder returning `Option<T>` that can also panic:
`ok` is `Some`, `stop` is `None`, `panic` is an index-out-of-range abort. -/
inductive DRes (α : Type) where
  | ok (a : α)
  | stop
  | panic
  deriving Repr, DecidableEq

/-- `u32::from_le_bytes([a,b,c,d])` on byte values. -/
def u32le (a b c d : Nat) : Nat :=
  a + 256 * b + 65536 * c + 16777216 * d

/-- `n.to_le_bytes()` for a `u32` value `n`. -/
def u32leBytes (n : Nat) : List Nat :=
  [n % 256, n / 256 % 256, n / 65536 % 256, n / 16777216 % 256]

/-- `n.to_le_bytes()` for a `u16` value `n`. -/
def u16leBytes (n : Nat) : List Nat :=
  [n % 256, n / 256 % 256]

/-- A UTF-8 continuation byte (0x80..=0xBF). -/
def isCont (b : Nat) : Bool :=
  decide (128 ≤ b ∧ b ≤ 191)

/-- Validity of a byte sequence as UTF-8, exactly the acceptance condition
of `str::from_utf8` (rejecting overlong forms, surrogates and values above
U+10FFFF). -/
def isValidUtf8 : List Nat → Bool
  | [] => true
  | b :: rest =>
    if b ≤ 127 then isValidUtf8 rest
    else if 194 ≤ b ∧ b ≤ 223 then
      match rest with
      | c1 :: rest1 => isCont c1 && isValidUtf8 rest1
      | [] => false
    else if b = 224 then
      match rest with
      | c1 :: c2 :: rest2 => decide (160 ≤ c1 ∧ c1 ≤ 191) && isCont c2 && isValidUtf8 rest2
      | _ => false
    else if (225 ≤ b ∧ b ≤ 236) ∨ b = 238 ∨ b = 239 then
      match rest with
      | c1 :: c2 :: rest2 => isCont c1 && isCont c2 && isValidUtf8 rest2
      | _ => false
    else if b = 237 then
      match rest with
      | c1 :: c2 :: rest2 => decide (128 ≤ c1 ∧ c1 ≤ 159) && isCont c2 && isValidUtf8 rest2
      | _ => false
    else if b = 240 then
      match rest with
      | c1 :: c2 :: c3 :: rest3 =>
          decide (144 ≤ c1 ∧ c1 ≤ 191) && isCont c2 && isCont c3 && isValidUtf8 rest3
      | _ => false
    else if 241 ≤ b ∧ b ≤ 243 then
      match rest with
      | c1 :: c2 :: c3 :: rest3 => isCont c1 && isCont c2 && isCont c3 && isValidUtf8 rest3
      | _ => false
    else if b = 244 then
      match rest with
      | c1 :: c2 :: c3 :: rest3 =>
          decide (128 ≤ c1 ∧ c1 ≤ 143) && isCont c2 && isCont c3 && isValidUtf8 rest3
      | _ => false
    else false

/-- Helper for `trim_end_matches(";1")`: on the reversed byte list,
repeatedly strip a leading `1;` pair (byte 49 then byte 59). -/
def stripRevVer : List Nat → List Nat
  | 49 :: 59 :: rest => stripRevVer rest
  | l => l

/-- `s.trim_end_matches(";1")`: remove every trailing `;1` suffix. -/
def trimEndVer (l : List Nat) : List Nat :=
  (stripRevVer l.reverse).reverse

/-- Decoded directory record of readiso.rs (struct DirectoryRecord);
the identifier is kept as its byte sequence. -/
structure DirectoryRecord where
  file_name : List Nat
  extent_location : Nat
  data_length : Nat
  is_directory : Bool
  deriving Repr, DecidableEq

/-- `DirectoryRecord::from_bytes` of readiso.rs, lines 43-66.  Reads
`data[0]` (panicking on an empty slice), returns `None` (`stop`) when the
record length byte is zero, reads the fixed-offset fields (panicking when
an index is out of range), slices the identifier of declared length
(panicking when `33 + file_name_length` exceeds the buffer), and maps
invalid UTF-8 to `None` through `.ok()?`. -/
def DirectoryRecord.from_bytes (data : List Nat) : DRes DirectoryRecord :=
  if data.length = 0 then .panic
  else if data.getD 0 0 = 0 then .stop
  else if data.length ≤ 13 then .panic
  else if data.length ≤ 32 then .panic
  else if data.length < 33 + data.getD 32 0 then .panic
  else if isValidUtf8 ((data.drop 33).take (data.getD 32 0)) then
    .ok { file_name := trimEndVer ((data.drop 33).take (data.getD 32 0)),
          extent_location := u32le (data.getD 2 0) (data.getD 3 0) (data.getD 4 0) (data.getD 5 0),
          data_length := u32le (data.getD 10 0) (data.getD 11 0) (data.getD 12 0) (data.getD 13 0),
          is_directory := (data.getD 25 0) &&& 2 != 0 }
  else .stop

/-- Decoded Primary Volume Descriptor of readiso.rs. -/
structure PrimaryVolumeDescriptor where
  root_directory_extent : Nat
  root_directory_size : Nat
  deriving Repr, DecidableEq

/-- `PrimaryVolumeDescriptor::from_bytes` of readiso.rs, lines 18-30:
`None` when byte 0 is not 1, otherwise the root extent from offset 158 and
the root size from offset 166, little-endian. -/
def PrimaryVolumeDescriptor.from_bytes (data : List Nat) : DRes PrimaryVolumeDescriptor :=
  if data.length = 0 then .panic
  else if data.getD 0 0 ≠ 1 then .stop
  else if data.length ≤ 169 then .panic
  else .ok { root_directory_extent :=
               u32le (data.getD 158 0) (data.getD 159 0) (data.getD 160 0) (data.getD 161 0),
             root_directory_size :=
               u32le (data.getD 166 0) (data.getD 167 0) (data.getD 168 0) (data.getD 169 0) }

/-- Overwrite `dest[pos .. pos + src.length)` with `src`; matches Rust
slice assignment when the range is within bounds (every use below writes
inside a freshly allocated vector of sufficient length). -/
def writeAt (dest : List Nat) (pos : Nat) (src : List Nat) : List Nat :=
  dest.take pos ++ src ++ dest.drop (pos + src.length)

/-- `dest[a..b].copy_from_slice(src)`: `none` models the Rust panic that
is raised when the source length differs from `b - a` (or the range is
out of bounds). -/
def copyFromSlice (dest : List Nat) (a b : Nat) (src : List Nat) : Option (List Nat) :=
  if a ≤ b ∧ b ≤ dest.length ∧ src.length = b - a then
    some (dest.take a ++ src ++ dest.drop b)
  else none

/-- The 5 bytes of the standard identifier literal `CD001`. -/
def stdId : List Nat := [67, 68, 48, 48, 49]

/-- The 30 bytes of the system identifier literal in main.rs line 34
(21 letters plus 9 trailing spaces). -/
def systemId : List Nat :=
  [82, 85, 83, 84, 95, 83, 89, 83, 84, 69, 77, 95, 71, 69, 78, 69, 82, 65, 84, 69, 68]
    ++ List.replicate 9 32

/-- The 30 bytes of the volume identifier literal in main.rs line 37
(15 letters plus 15 trailing spaces). -/
def volumeId : List Nat :=
  [82, 85, 83, 84, 95, 73, 83, 79, 95, 86, 79, 76, 85, 77, 69] ++ List.replicate 15 32

/-- `write_primary_volume_descriptor` of main.rs, lines 21-53, as the byte
block it would emit; `none` models a panic.  Every `copy_from_slice` of the
source is kept, with its exact range and source literal. -/
def write_primary_volume_descriptor (total_blocks : Nat) : Option (List Nat) :=
  (copyFromSlice ((List.replicate 2048 0).set 0 1) 1 6 stdId).bind fun vd1 =>
  (copyFromSlice (vd1.set 6 1) 8 40 systemId).bind fun vd2 =>
  (copyFromSlice vd2 40 72 volumeId).bind fun vd3 =>
  (copyFromSlice vd3 80 84 (u32leBytes (total_blocks % 4294967296))).bind fun vd4 =>
  (copyFromSlice vd4 128 130 (u16leBytes 2048)).bind fun vd5 =>
  (copyFromSlice vd5 120 122 (u16leBytes 1)).bind fun vd6 =>
  (copyFromSlice vd6 124 126 (u16leBytes 1)).bind fun vd7 =>
  some vd7

/-- `write_directory_record` of main.rs, lines 56-79: a zeroed vector of
`34 + file_name.len()` bytes, its length byte (cast to u8) at offset 0,
extent at offset 2, data length at offset 10, flags at offset 25,
identifier length at offset 32 and the identifier bytes at offset 33. -/
def write_directory_record (file_name : List Nat) (start_block file_size : Nat)
    (is_directory : Bool) : List Nat :=
  let n := file_name.length
  let r0 := (List.replicate (34 + n) 0).set 0 ((34 + n) % 256)
  let r1 := writeAt r0 2 (u32leBytes (start_block % 4294967296))
  let r2 := writeAt r1 10 (u32leBytes (file_size % 4294967296))
  let r3 := (r2.set 25 (if is_directory then 2 else 0)).set 32 (n % 256)
  writeAt r3 33 file_name

/-- Block count computed at main.rs line 108 in u32 arithmetic:
`(file_size + BLOCK_SIZE - 1) / BLOCK_SIZE` where the addition wraps
modulo 2^32. -/
def blocks_needed_u32 (L : Nat) : Nat :=
  ((L + 2047) % 4294967296) / 2048

/-- Block count computed at main.rs line 224 in u64 arithmetic. -/
def total_blocks_u64 (L : Nat) : Nat :=
  ((L + 2047) % 18446744073709551616) / 2048

/-- Block count computed at readiso.rs line 72: the u32 size is widened to
usize (64 bits), where `size + 2048 - 1` cannot wrap. -/
def num_blocks_reader (size : Nat) : Nat :=
  (size + 2047) / 2048

/-- Padding appended by `pad_to_block` of main.rs, lines 12-18. -/
def padToBlock (current_size : Nat) : List Nat :=
  List.replicate ((2048 - current_size % 2048) % 2048) 0

mutual
/-- Abstract source tree entry seen through the std::fs calls the builder
makes.  `openDenied` says `File::open` fails with PermissionDenied,
`metaDenied` says `fs::metadata` fails with PermissionDenied, and
`readDenied` says `fs::read_dir` fails with PermissionDenied; the byte
content determines `metadata.len()`. -/
inductive Entry where
  | file (name : List Nat) (content : List Nat) (openDenied metaDenied : Bool)
  | dir (name : List Nat) (readDenied : Bool) (children : EntryList)
/-- The children of a directory, in the order `read_dir` yields them. -/
inductive EntryList where
  | nil
  | cons (e : Entry) (rest : EntryList)
end

/-- Result of the sizing pass. -/
inductive CRes where
  | ok (total : Nat)
  | error (e : IoErr)
  deriving Repr, DecidableEq

/-- The entry loop of `calculate_total_size` of main.rs, lines 180-210:
subdirectory sizes are added unless the recursive call (inlined in the
`dir` case: a failing `read_dir` is the modelled PermissionDenied source)
reports PermissionDenied, in which case the subdirectory is skipped; file
metadata lengths are added unless metadata reports PermissionDenied.  The
u64 accumulator wraps modulo 2^64. -/
def sizeChildren : EntryList → Nat → CRes
  | .nil, acc => .ok acc
  | .cons (.dir _ rd ch) rest, acc =>
    match (if rd then CRes.error .permissionDenied else sizeChildren ch 0) with
    | .ok s => sizeChildren rest ((acc + s) % 18446744073709551616)
    | .error .permissionDenied => sizeChildren rest acc
  | .cons (.file _ content _ md) rest, acc =>
    if md then sizeChildren rest acc
    else sizeChildren rest ((acc + content.length) % 18446744073709551616)

/-- `calculate_total_size` of main.rs, lines 177-213, applied to a
directory whose `read_dir` outcome is `rd` and whose children are
`children`; its body is exactly the frame inlined in the `dir` case of
`sizeChildren`. -/
def calculate_total_size (rd : Bool) (children : EntryList) : CRes :=
  if rd then .error .permissionDenied else sizeChildren children 0

/-- Result of a writer-pass function: `out` is the byte stream it emitted
to the (sequential) writer before returning — Rust writes through a
mutable reference, so bytes emitted before an error persist — `bp` is the
final value of the `bytes_processed` counter, and `a` the returned value. -/
inductive WRes (α : Type) where
  | ok (out : List Nat) (bp : Nat) (a : α)
  | error (out : List Nat) (bp : Nat) (e : IoErr)
  | panic
  deriving Repr, DecidableEq

/-- Executable discriminator: did the writer pass end in a
PermissionDenied error? -/
def WRes.isPermissionDenied : WRes α → Bool
  | .error _ _ .permissionDenied => true
  | _ => false

/-- `add_file` of main.rs, lines 82-120: a PermissionDenied `File::open`
is swallowed into `Ok(0)` with nothing written; a failing `fs::metadata`
propagates; otherwise the whole content is streamed, `bytes_processed`
advances by the content length (u64, wrapping), the output is padded to a
block boundary using the u32 `total_written` counter, and the returned
block count is the u32 computation of line 108. -/
def add_file (content : List Nat) (openDenied metaDenied : Bool) (bp : Nat) : WRes Nat :=
  if openDenied then .ok [] bp 0
  else if metaDenied then .error [] bp .permissionDenied
  else
    let file_size := content.length % 4294967296
    .ok (content ++ padToBlock (content.length % 4294967296))
       ((bp + content.length) % 18446744073709551616)
       (blocks_needed_u32 file_size)

/-- The non-recursive frame of a subdirectory call of `process_directory`
(main.rs lines 123-132 with `root = false`, plus the final
`block_counter - start_block` of line 173): a failing `read_dir` yields
PermissionDenied with nothing written, otherwise the result of the entry
loop has its running counter turned into a block count. -/
def dirFrame (rd : Bool) (start_block bp : Nat) (sub : WRes Nat) : WRes Nat :=
  if rd then .error [] bp .permissionDenied
  else
    match sub with
    | .ok out bp2 counter => .ok out bp2 (counter - start_block)
    | .error out bp2 e => .error out bp2 e
    | .panic => .panic

/-- Prefix the emitted stream of a writer result. -/
def withDots (dots : List Nat) : WRes Nat → WRes Nat
  | .ok out bp a => .ok (dots ++ out) bp a
  | .error out bp e => .error (dots ++ out) bp e
  | .panic => .panic

/-- The entry loop of `process_directory` of main.rs, lines 132-171, with
the running `block_counter` as first state component.  For a subdirectory:
recurse first (the frame `dirFrame` is the inlined recursive call with
`root = false`; bytes emitted by a partially processed subtree stay in
the stream even when it then fails), write the parent record on success, skip
on PermissionDenied.  For a file: `add_file`, then main.rs line 154 calls
`fs::metadata(&path)?` whose PermissionDenied propagates out of the loop;
on success the record is written after the file bytes. -/
def process_children : EntryList → Nat → Nat → Nat → WRes Nat
  | .nil, counter, _ts, bp => .ok [] bp counter
  | .cons (.dir name rd ch) rest, counter, ts, bp =>
    match dirFrame rd counter bp (process_children ch counter ts bp) with
    | .ok sub_out bp2 dir_size =>
      let rec1 := write_directory_record name counter ((dir_size * 2048) % 4294967296) true
      (match process_children rest (counter + dir_size) ts bp2 with
       | .ok out bp3 c3 => .ok (sub_out ++ rec1 ++ out) bp3 c3
       | .error out bp3 e => .error (sub_out ++ rec1 ++ out) bp3 e
       | .panic => .panic)
    | .error sub_out bp2 .permissionDenied =>
      (match process_children rest counter ts bp2 with
       | .ok out bp3 c3 => .ok (sub_out ++ out) bp3 c3
       | .error out bp3 e => .error (sub_out ++ out) bp3 e
       | .panic => .panic)
    | .panic => .panic
  | .cons (.file name content od md) rest, counter, ts, bp =>
    match add_file content od md bp with
    | .ok written bp2 blocks =>
      if md then .error written bp2 .permissionDenied
      else
        let rec1 := write_directory_record name counter (content.length % 4294967296) false
        (match process_children rest (counter + blocks) ts bp2 with
         | .ok out bp3 c3 => .ok (written ++ rec1 ++ out) bp3 c3
         | .error out bp3 e => .error (written ++ rec1 ++ out) bp3 e
         | .panic => .panic)
    | .error written bp2 .permissionDenied =>
      (match process_children rest counter ts bp2 with
       | .ok out bp3 c3 => .ok (written ++ out) bp3 c3
       | .error out bp3 e => .error (written ++ out) bp3 e
       | .panic => .panic)
    | .panic => .panic

/-- `process_directory` of main.rs, lines 123-174.  When `root` is true
the `.` and `..` records are emitted first (line 127, before `read_dir`
is even called); the children are then processed in order, and the
returned value is `block_counter - start_block`. -/
def process_directory (children : EntryList) (readDenied : Bool) (start_block : Nat)
    (root : Bool) (total_size bp : Nat) : WRes Nat :=
  let dots : List Nat :=
    if root then
      write_directory_record [46] start_block 0 true
        ++ write_directory_record [46, 46] start_block 0 true
    else []
  withDots dots (dirFrame readDenied start_block bp (process_children children start_block total_size bp))

/-- `create_iso` of main.rs, lines 216-239: sizing pass, block total in
u64 cast to u32, PVD emission, root traversal at start block 20, final
padding.  The root of the source tree is given as its `read_dir` outcome
and its children. -/
def create_iso (rootRd : Bool) (children : EntryList) : WRes Unit :=
  match calculate_total_size rootRd children with
  | .error e => .error [] 0 e
  | .ok total_size =>
    match write_primary_volume_descriptor ((total_blocks_u64 total_size) % 4294967296) with
    | none => .panic
    | some pvd =>
      match process_directory children rootRd 20 true total_size 0 with
      | .ok out bp _blocks =>
        let img := pvd ++ out
        .ok (img ++ padToBlock img.length) bp ()
      | .error out bp e => .error (pvd ++ out) bp e
      | .panic => .panic

/-- The per-block record scan of `read_directory` of readiso.rs, lines
83-100, collecting the records of one 2048-byte directory block: while
the offset is below `BLOCK_SIZE`, decode at the current offset; a `None`
decode ends the block, a decode panic aborts, and after a successful
decode the offset advances by `buffer[offset]`, the record length byte.
The termination argument is exactly the loop invariant of the source: a
successful decode forces that byte to be nonzero, so the offset strictly
increases. -/
def scanBlock (buffer : List Nat) (offset : Nat) : DRes (List DirectoryRecord) :=
  if h : offset < 2048 then
    match hfb : DirectoryRecord.from_bytes (buffer.drop offset) with
    | .stop => .ok []
    | .panic => .panic
    | .ok r =>
      match scanBlock buffer (offset + buffer.getD offset 0) with
      | .ok rest => .ok (r :: rest)
      | .stop => .stop
      | .panic => .panic
  else .ok []
termination_by 2048 - offset
decreasing_by
  have h1 : (buffer.drop offset).getD 0 0 ≠ 0 := by
    revert hfb
    unfold DirectoryRecord.from_bytes
    split_ifs <;> simp_all
  have h2 : (buffer.drop offset).getD 0 0 = buffer.getD offset 0 := by
    simp [List.getD_eq_getElem?_getD, List.getElem?_drop]
  rw [h2] at h1
  omega

/-- The progress formula of main.rs line 100,
`bytes_processed / total_size * 100`, in exact rational arithmetic in
place of f64 (the claims about it concern ordering and magnitude, which
the correctly rounded monotone f64 division and multiplication
preserve at the values used in the proofs below). -/
def progress (bytes_processed total_size : Nat) : ℚ :=
  ((bytes_processed : ℚ) / (total_size : ℚ)) * 100

/-! Helper lemmas shared by several results. -/

/-- A `copy_from_slice` with matching lengths and a valid range copies. -/
theorem copyFromSlice_some (dest : List Nat) (a b : Nat) (src : List Nat)
    (h1 : a ≤ b) (h2 : b ≤ dest.length) (h3 : src.length = b - a) :
    copyFromSlice dest a b src = some (dest.take a ++ src ++ dest.drop b) := by
  unfold copyFromSlice
  rw [if_pos ⟨h1, h2, h3⟩]

/-- A `copy_from_slice` whose source length differs from the target range
panics, whatever the destination is. -/
theorem copyFromSlice_len_ne (dest : List Nat) (a b : Nat) (src : List Nat)
    (h : src.length ≠ b - a) : copyFromSlice dest a b src = none := by
  unfold copyFromSlice
  rw [if_neg]
  rintro ⟨-, -, hh⟩
  exact h hh

/-- The length-mismatch panic of main.rs line 34: the system identifier
literal has 30 bytes but the target slice `[8..40]` has 32 positions, so
`copy_from_slice` panics on every call of the PVD writer. -/
theorem pvd_writer_none (total_blocks : Nat) :
    write_primary_volume_descriptor total_blocks = none := by
  unfold write_primary_volume_descriptor
  rw [copyFromSlice_some _ _ _ _ (by norm_num)
        (by rw [List.length_set, List.length_replicate]; norm_num) rfl,
      Option.some_bind,
      copyFromSlice_len_ne _ _ _ _ (by rw [show systemId.length = 30 from rfl]; norm_num),
      Option.none_bind]

/-- `writeAt` inside bounds preserves the length. -/
theorem writeAt_length (l : List Nat) (pos : Nat) (src : List Nat)
    (h : pos + src.length ≤ l.length) : (writeAt l pos src).length = l.length := by
  unfold writeAt
  simp only [List.length_append, List.length_take, List.length_drop]
  omega

/-- `writeAt` leaves every position strictly before `pos` unchanged. -/
theorem writeAt_getElem_lt (l : List Nat) (pos : Nat) (src : List Nat) (i : Nat)
    (hi : i < pos) (hp : pos ≤ l.length) : (writeAt l pos src)[i]? = l[i]? := by
  unfold writeAt
  rw [List.getElem?_append_left, List.getElem?_append_left, List.getElem?_take_of_lt hi]
  · simp only [List.length_take]; omega
  · simp only [List.length_append, List.length_take]; omega

/-- An encoded directory record occupies exactly `34 + len(name)` bytes:
the source allocates `vec![0u8; 34 + file_name.len()]` and never pads. -/
theorem wdr_length (name : List Nat) (sb fs : Nat) (d : Bool) :
    (write_directory_record name sb fs d).length = 34 + name.length := by
  unfold write_directory_record
  simp only [writeAt, List.length_append, List.length_take, List.length_drop,
    List.length_set, List.length_replicate, u32leBytes, List.length_cons, List.length_nil]
  omega

/-- The record length byte (offset 0) of an encoded directory record is
`34 + len(name)` whenever that value fits in a u8. -/
theorem wdr_getD_zero (name : List Nat) (sb fs : Nat) (d : Bool) (h : name.length ≤ 221) :
    (write_directory_record name sb fs d).getD 0 0 = 34 + name.length := by
  have e0 : ((List.replicate (34 + name.length) 0).set 0 ((34 + name.length) % 256)).length
      = 34 + name.length := by
    rw [List.length_set, List.length_replicate]
  have e1 : (writeAt ((List.replicate (34 + name.length) 0).set 0 ((34 + name.length) % 256)) 2
      (u32leBytes (sb % 4294967296))).length = 34 + name.length := by
    rw [writeAt_length _ _ _ (by rw [e0]; simp [u32leBytes]; omega), e0]
  have e2 : (writeAt (writeAt ((List.replicate (34 + name.length) 0).set 0
      ((34 + name.length) % 256)) 2 (u32leBytes (sb % 4294967296))) 10
      (u32leBytes (fs % 4294967296))).length = 34 + name.length := by
    rw [writeAt_length _ _ _ (by rw [e1]; simp [u32leBytes]; omega), e1]
  unfold write_directory_record
  rw [List.getD_eq_getElem?_getD]
  rw [writeAt_getElem_lt _ _ _ _ (by norm_num)
      (by rw [List.length_set, List.length_set, e2]; omega)]
  rw [List.getElem?_set_ne (by norm_num), List.getElem?_set_ne (by norm_num)]
  rw [writeAt_getElem_lt _ _ _ _ (by norm_num) (by rw [e1]; omega)]
  rw [writeAt_getElem_lt _ _ _ _ (by norm_num) (by rw [e0]; omega)]
  rw [List.getElem?_set_self (by rw [List.length_replicate]; omega)]
  rw [Option.getD_some]
  omega

/-! Results on the claims. -/

/-- C8: the claimed PVD round trip (encode `total_blocks`, decode the
block back) cannot hold on this code: `write_primary_volume_descriptor`
panics unconditionally, for every `total_blocks`, because main.rs line 34
copies the 30-byte system identifier literal into the 32-byte slice
`[8..40]` and `copy_from_slice` panics on the length mismatch.  No
2048-byte block is ever produced for the reader to decode. -/
theorem write_pvd_always_panics (total_blocks : Nat) :
    write_primary_volume_descriptor total_blocks = none :=
  pvd_writer_none total_blocks

/-- C1: building the synthetic tree of the claim (root with file
`A.TXT` of 5000 bytes and subdirectory `SUB` with file `B.BIN` of 1 byte)
does not yield a readable image: the sizing pass returns 5001 bytes, and
`create_iso` then panics inside the PVD writer before any directory data
is emitted, so nothing can be listed back. -/
theorem create_iso_panics_on_synthetic_tree :
    create_iso false
      (.cons (.file [65, 46, 84, 88, 84] (List.replicate 5000 65) false false)
        (.cons (.dir [83, 85, 66] false
          (.cons (.file [66, 46, 66, 73, 78] [66] false false) .nil)) .nil))
      = .panic := by
  have hsize :
      calculate_total_size false
        (.cons (.file [65, 46, 84, 88, 84] (List.replicate 5000 65) false false)
          (.cons (.dir [83, 85, 66] false
            (.cons (.file [66, 46, 66, 73, 78] [66] false false) .nil)) .nil)) = .ok 5001 := by
    simp only [calculate_total_size, sizeChildren, List.length_replicate, List.length_cons,
      List.length_nil, if_false, Bool.false_eq_true, if_true, Nat.reduceMod, Nat.reduceAdd]
  unfold create_iso
  rw [hsize]
  simp only [pvd_writer_none]

/-- C2: on a root holding an accessible 10-byte file `OK` and a file `DN`
that raises PermissionDenied on both `File::open` and `fs::metadata`, the
sizing pass does exclude the denied file (total 10), but the write pass
does not skip it: `add_file` swallows the denied open into `Ok(0)`, after
which main.rs line 154 re-queries `fs::metadata(&path)?`, whose
PermissionDenied escapes the per-entry match and aborts the whole
traversal instead of skipping the entry. -/
theorem sizing_excludes_denied_but_build_aborts :
    calculate_total_size false
      (.cons (.file [79, 75] (List.replicate 10 7) false false)
        (.cons (.file [68, 78] (List.replicate 5 1) true true) .nil)) = .ok 10 ∧
    (process_directory
      (.cons (.file [79, 75] (List.replicate 10 7) false false)
        (.cons (.file [68, 78] (List.replicate 5 1) true true) .nil))
      false 20 true 10 0).isPermissionDenied = true :=
  ⟨by rfl, by rfl⟩

/-- C3 counterexample: a record whose length byte is 34 (nonzero) but
whose 1-byte identifier is the invalid UTF-8 byte 255 decodes to `None`
(`stop`), the same signal as end-of-records, refuting the claim that
`None` is returned precisely when the record length byte is 0 and that
invalid text is kept distinct from it. -/
theorem from_bytes_invalid_text_conflated_with_stop :
    DirectoryRecord.from_bytes ([34] ++ List.replicate 31 0 ++ [1, 255]) = .stop ∧
    ([34] ++ List.replicate 31 0 ++ [1, 255] : List Nat).getD 0 0 ≠ 0 := by
  decide

/-- C3 (amended): `DirectoryRecord.from_bytes` returns the `None` signal
when the record length byte is 0, and also when the identifier bytes are
not valid UTF-8 — `.ok()?` at readiso.rs line 54 funnels the invalid-text
failure into the same `None` as end-of-records, so the two are conflated
rather than distinct. -/
theorem from_bytes_stop_on_zero_or_invalid_text :
    (∀ data : List Nat, data ≠ [] → data.getD 0 0 = 0 →
        DirectoryRecord.from_bytes data = .stop) ∧
    (∀ data : List Nat, data.getD 0 0 ≠ 0 → 33 + data.getD 32 0 ≤ data.length →
        isValidUtf8 ((data.drop 33).take (data.getD 32 0)) = false →
        DirectoryRecord.from_bytes data = .stop) := by
  constructor
  · intro data hne hz
    have hl : ¬ data.length = 0 := by
      simpa [List.length_eq_zero] using hne
    unfold DirectoryRecord.from_bytes
    rw [if_neg hl, if_pos hz]
  · intro data h0 hlen hval
    have hl : ¬ data.length = 0 := by omega
    unfold DirectoryRecord.from_bytes
    rw [if_neg hl, if_neg h0, if_neg (by omega : ¬ data.length ≤ 13),
      if_neg (by omega : ¬ data.length ≤ 32),
      if_neg (by omega : ¬ data.length < 33 + data.getD 32 0),
      if_neg (by rw [Bool.not_eq_true]; exact hval)]

/-- C3 witness: the amended statement applied at a zero length byte and at
the invalid-identifier buffer of the counterexample. -/
theorem from_bytes_stop_on_zero_or_invalid_text_witness :
    DirectoryRecord.from_bytes [0] = .stop ∧
    DirectoryRecord.from_bytes ([34] ++ List.replicate 31 0 ++ [1, 255]) = .stop :=
  ⟨from_bytes_stop_on_zero_or_invalid_text.1 [0] (by decide) (by decide),
   from_bytes_stop_on_zero_or_invalid_text.2 ([34] ++ List.replicate 31 0 ++ [1, 255])
     (by decide) (by decide) (by decide)⟩

/-- C4: a 40-byte buffer whose record length byte is 40 and whose declared
identifier length (offset 32) is 20 would need bytes up to offset 52, past
the end of the buffer: `DirectoryRecord::from_bytes` slices
`data[33..53]` out of range and panics (readiso.rs line 53) instead of
returning the propagated decode failure the claim requires. -/
theorem from_bytes_panics_on_oversized_name_length :
    DirectoryRecord.from_bytes ([40] ++ List.replicate 31 0 ++ [20] ++ List.replicate 7 0)
      = .panic := by
  decide

/-- C5 counterexample: with the sizing-pass total 2000 and 3000 bytes
written (the passes disagreeing, e.g. a file that grew or became readable
only in the second pass), the reported progress is 150, exceeding 100 —
main.rs line 100 computes the raw ratio and never clamps. -/
theorem progress_exceeds_hundred :
    progress 3000 2000 = 150 ∧ (100 : ℚ) < progress 3000 2000 := by
  norm_num [progress]

/-- C5 (amended): within one build the reported percentage is
monotonically non-decreasing across successive chunks — `bytes_processed`
only ever grows (third conjunct, for `add_file` on a readable file) and
the denominator is the fixed phase-1 total — but it is not clamped to
100: whenever the bytes written exceed the sizing total, the report
exceeds 100. -/
theorem progress_monotone_not_clamped :
    (∀ b1 b2 t : Nat, 0 < t → b1 ≤ b2 → progress b1 t ≤ progress b2 t) ∧
    (∀ b t : Nat, 0 < t → t < b → (100 : ℚ) < progress b t) ∧
    (∀ (content : List Nat) (bp : Nat) (out : List Nat) (bp2 blocks : Nat),
        bp + content.length < 18446744073709551616 →
        add_file content false false bp = .ok out bp2 blocks → bp ≤ bp2) := by
  refine ⟨?_, ?_, ?_⟩
  · intro b1 b2 t ht hb
    have ht' : (0 : ℚ) < (t : ℚ) := by exact_mod_cast ht
    have hb' : (b1 : ℚ) ≤ (b2 : ℚ) := by exact_mod_cast hb
    unfold progress
    exact mul_le_mul_of_nonneg_right ((div_le_div_right ht').mpr hb') (by norm_num)
  · intro b t ht hb
    have ht' : (0 : ℚ) < (t : ℚ) := by exact_mod_cast ht
    have hb' : (t : ℚ) < (b : ℚ) := by exact_mod_cast hb
    have h1 : (1 : ℚ) < (b : ℚ) / (t : ℚ) := (one_lt_div ht').mpr hb'
    unfold progress
    calc (100 : ℚ) = 1 * 100 := by norm_num
    _ < (b : ℚ) / (t : ℚ) * 100 := by
        exact mul_lt_mul_of_pos_right h1 (by norm_num)
  · intro content bp out bp2 blocks hlt h
    unfold add_file at h
    simp only [Bool.false_eq_true, if_false, WRes.ok.injEq] at h
    rw [Nat.mod_eq_of_lt hlt] at h
    omega

/-- C5 witness: the amended statement applied at total 2000 with chunks
reaching 1000 then 3000 bytes, and `add_file` on an empty readable file
starting from 5 processed bytes. -/
theorem progress_monotone_not_clamped_witness :
    progress 1000 2000 ≤ progress 3000 2000 ∧
    (100 : ℚ) < progress 3000 2000 ∧ (5 : Nat) ≤ 5 :=
  ⟨progress_monotone_not_clamped.1 1000 3000 2000 (by norm_num) (by norm_num),
   progress_monotone_not_clamped.2.1 3000 2000 (by norm_num) (by norm_num),
   progress_monotone_not_clamped.2.2 [] 5 [] 5 0 (by norm_num) (by decide)⟩

/-- C6 counterexample: the record encoded for the one-letter name `A` has
record length byte 35 and total length 35 — odd, with no parity pad byte
— refuting the claim that the length is rounded up to even. -/
theorem record_length_odd_for_single_letter_name :
    (write_directory_record [65] 20 5000 false).getD 0 0 = 35 ∧
    (write_directory_record [65] 20 5000 false).length = 35 ∧ ¬ (35 % 2 = 0) := by
  decide

/-- C6 (amended): the encoded record length is exactly `34 + len(name)`
with no rounding — `write_directory_record` allocates
`vec![0u8; 34 + file_name.len()]` and stores that length (as u8) at
offset 0 — so the record length is at least `34 +` the identifier length
(with equality) but is even exactly when the name length is even. -/
theorem record_length_exact_no_padding (name : List Nat) (sb fs : Nat) (d : Bool)
    (h : name.length ≤ 221) :
    (write_directory_record name sb fs d).length = 34 + name.length ∧
    (write_directory_record name sb fs d).getD 0 0 = 34 + name.length ∧
    ((34 + name.length) % 2 = 0 ↔ name.length % 2 = 0) :=
  ⟨wdr_length name sb fs d, wdr_getD_zero name sb fs d h, by omega⟩

/-- C6 witness: the amended statement at the two-letter name `AB`. -/
theorem record_length_exact_no_padding_witness :
    (write_directory_record [65, 66] 20 5000 false).length = 34 + 2 ∧
    (write_directory_record [65, 66] 20 5000 false).getD 0 0 = 34 + 2 ∧
    ((34 + 2) % 2 = 0 ↔ 2 % 2 = 0) := by
  have := record_length_exact_no_padding [65, 66] 20 5000 false (by norm_num)
  simpa using this

/-- C7 counterexample: a subdirectory frame (`root = false`) with no
children emits no bytes at all — in particular not the nonempty `.` and
`..` records the claim requires of every directory frame; only the root
receives them (main.rs line 127 guards the self/parent records with
`if root`). -/
theorem subdirectory_frame_emits_no_records :
    process_directory .nil false 20 false 100 0 = .ok [] 0 0 ∧
    write_directory_record [46] 20 0 true ≠ [] := by
  exact ⟨by rfl, by decide⟩

/-- C7 (amended): the `.` and `..` self/parent records are emitted first
by the root frame only — every successful root traversal emits them
before all child output — while a subdirectory frame emits no self/parent
records of its own (shown for the frame with no children, whose emission
is empty). -/
theorem dot_records_only_at_root :
    (∀ (children : EntryList) (sb ts bp : Nat) (out : List Nat) (bp2 blocks : Nat),
        process_directory children false sb true ts bp = .ok out bp2 blocks →
        ∃ t, out = write_directory_record [46] sb 0 true
              ++ write_directory_record [46, 46] sb 0 true ++ t) ∧
    (∀ sb ts bp : Nat, process_directory .nil false sb false ts bp = .ok [] bp 0) := by
  constructor
  · intro children sb ts bp out bp2 blocks h
    unfold process_directory dirFrame withDots at h
    cases hc : process_children children sb ts bp with
    | ok o b c =>
      rw [hc] at h
      simp only [if_true, Bool.false_eq_true, if_false, WRes.ok.injEq] at h
      exact ⟨o, h.1.symm⟩
    | error o b e =>
      rw [hc] at h
      simp at h
    | panic =>
      rw [hc] at h
      simp at h
  · intro sb ts bp
    simp [process_directory, process_children, dirFrame, withDots]

/-- C7 witness: the amended statement applied to a root frame with no
children (its whole emission is exactly the two self/parent records) and
to a childless subdirectory frame. -/
theorem dot_records_only_at_root_witness :
    (∃ t, write_directory_record [46] 20 0 true ++ write_directory_record [46, 46] 20 0 true
        = write_directory_record [46] 20 0 true
            ++ write_directory_record [46, 46] 20 0 true ++ t) ∧
    process_directory .nil false 7 false 3 4 = .ok [] 4 0 :=
  ⟨dot_records_only_at_root.1 .nil 20 5 6
      (write_directory_record [46] 20 0 true ++ write_directory_record [46, 46] 20 0 true) 6 0
      (by rfl),
   dot_records_only_at_root.2 7 3 4⟩

/-- C9 counterexample: the u32 computation of main.rs line 108 wraps for a
file of 2^32 - 1 bytes: the wrapped sum `2^32 - 1 + 2047` leaves 2046,
so 0 blocks are reported, which is not the ceiling of `L / 2048` (the
product `2048 * 0` falls short of `L`). -/
theorem blocks_needed_u32_wraps_at_4gib :
    blocks_needed_u32 4294967295 = 0 ∧ ¬ (4294967295 ≤ 2048 * blocks_needed_u32 4294967295) := by
  decide

/-- C9 (amended): each of the three block-count computations equals
`ceil(L / 2048)` — characterised by `L ≤ 2048 * blocks` and
`2048 * blocks < L + 2048` — as long as its wrapping addition does not
overflow: `L + 2047 < 2^32` at the u32 site (main.rs line 108),
`L + 2047 < 2^64` at the u64 site (main.rs line 224), and every u32 size
at the reader site (readiso.rs line 72, computed in 64-bit usize); in
particular `L = 0` gives 0 blocks and `L = 2048 * k` gives exactly `k`. -/
theorem blocks_needed_ceiling_within_range :
    (∀ L : Nat, L + 2047 < 4294967296 →
        L ≤ 2048 * blocks_needed_u32 L ∧ 2048 * blocks_needed_u32 L < L + 2048) ∧
    (∀ L : Nat, L + 2047 < 18446744073709551616 →
        L ≤ 2048 * total_blocks_u64 L ∧ 2048 * total_blocks_u64 L < L + 2048) ∧
    (∀ L : Nat, L < 4294967296 →
        L ≤ 2048 * num_blocks_reader L ∧ 2048 * num_blocks_reader L < L + 2048) ∧
    blocks_needed_u32 0 = 0 ∧
    (∀ k : Nat, k ≤ 2097151 → blocks_needed_u32 (2048 * k) = k) := by
  refine ⟨?_, ?_, ?_, by decide, ?_⟩
  · intro L hL
    unfold blocks_needed_u32
    omega
  · intro L hL
    unfold total_blocks_u64
    omega
  · intro L hL
    unfold num_blocks_reader
    omega
  · intro k hk
    unfold blocks_needed_u32
    omega

/-- C9 witness: the amended statement at 5000 bytes for the two writer
sites, 1 byte for the reader site, and `k = 2` for the exact-multiple
case. -/
theorem blocks_needed_ceiling_within_range_witness :
    (5000 ≤ 2048 * blocks_needed_u32 5000 ∧ 2048 * blocks_needed_u32 5000 < 5000 + 2048) ∧
    (5000 ≤ 2048 * total_blocks_u64 5000 ∧ 2048 * total_blocks_u64 5000 < 5000 + 2048) ∧
    (1 ≤ 2048 * num_blocks_reader 1 ∧ 2048 * num_blocks_reader 1 < 1 + 2048) ∧
    blocks_needed_u32 (2048 * 2) = 2 :=
  ⟨blocks_needed_ceiling_within_range.1 5000 (by norm_num),
   blocks_needed_ceiling_within_range.2.1 5000 (by norm_num),
   blocks_needed_ceiling_within_range.2.2.1 1 (by norm_num),
   blocks_needed_ceiling_within_range.2.2.2.2 2 (by norm_num)⟩

/-- C10: whenever the reader decodes a record successfully at the current
scan offset, the record length byte at that offset is nonzero, so the
offset `offset + buffer[offset]` of the next iteration strictly exceeds
the current one — the termination invariant under which the per-block
scan `scanBlock` (readiso.rs lines 83-100) was accepted: the offset
strictly climbs toward 2048 unless the scan stops or aborts. -/
theorem scan_offset_strictly_increases (buffer : List Nat) (offset : Nat)
    (r : DirectoryRecord)
    (h : DirectoryRecord.from_bytes (buffer.drop offset) = .ok r) :
    buffer.getD offset 0 ≠ 0 ∧ offset < offset + buffer.getD offset 0 := by
  have h1 : (buffer.drop offset).getD 0 0 ≠ 0 := by
    revert h
    unfold DirectoryRecord.from_bytes
    split_ifs <;> simp_all
  have h2 : (buffer.drop offset).getD 0 0 = buffer.getD offset 0 := by
    simp [List.getD_eq_getElem?_getD, List.getElem?_drop]
  rw [h2] at h1
  exact ⟨h1, by omega⟩

/-- C10 witness: the invariant at offset 0 of a buffer holding the
encoded record of file `A` (extent 20, 5000 bytes), which decodes
successfully and has record length byte 35. -/
theorem scan_offset_strictly_increases_witness :
    (write_directory_record [65] 20 5000 false).getD 0 0 ≠ 0 ∧
    0 < 0 + (write_directory_record [65] 20 5000 false).getD 0 0 :=
  scan_offset_strictly_increases (write_directory_record [65] 20 5000 false) 0
    { file_name := [65], extent_location := 20, data_length := 5000, is_directory := false }
    (by decide)
